import Mathlib

/-!
Shallow embedding of the Instagram content pipeline repository
(image_generator.py and instagram_crew.py) and verification of its
specification claims.

Python strings are modelled as Lean `String` (a list of unicode code
points); Python string primitives (strip, split, upper, startswith,
containment, lstrip with a character set) are embedded as executable
functions on `List Char`.  Whitespace and case conversion are modelled
on the ASCII fragment, which is what the markers and constants in the
source use.  HTTP calls are modelled by an oracle indexed by the
position of the request in the call sequence, returning either a
decoded response body or an error message (any of the exceptions the
Python code catches).  `random.randint(1, 10_000_000)` is modelled by
a stream of draws together with the hypothesis that every draw lies in
the documented range.
-/

/-! ### Python string primitives -/

/-- ASCII whitespace, as stripped by Python `str.strip()`. -/
def isPySpace (c : Char) : Bool :=
  c == ' ' || c == '\t' || c == '\n' || c == Char.ofNat 11 || c == Char.ofNat 12 || c == '\r'

/-- Drop leading whitespace, as in Python `str.lstrip()`. -/
def stripLead (l : List Char) : List Char := l.dropWhile isPySpace

/-- Drop trailing whitespace, as in Python `str.rstrip()`. -/
def stripTrail (l : List Char) : List Char := (l.reverse.dropWhile isPySpace).reverse

/-- Python `str.strip()` on a character list. -/
def stripList (l : List Char) : List Char := stripTrail (stripLead l)

/-- Python `str.strip()`. -/
def pyStrip (s : String) : String := ⟨stripList s.data⟩

/-- Python `str.split('\n')` on a character list: split at every newline,
keeping empty chunks. -/
def splitLinesList : List Char → List (List Char)
  | [] => [[]]
  | c :: cs =>
    let r := splitLinesList cs
    if c == '\n' then [] :: r
    else
      match r with
      | [] => [[c]]
      | w :: ws => (c :: w) :: ws

/-- Python `text.split('\n')`. -/
def pyLines (s : String) : List String := (splitLinesList s.data).map (fun l => ⟨l⟩)

/-- Core of Python `str.split()` with no argument: maximal runs of
non-whitespace characters, in order.  The accumulator holds the
current word reversed. -/
def wordsCore : List Char → List Char → List (List Char)
  | [], cur => if cur.isEmpty then [] else [cur.reverse]
  | c :: cs, cur =>
    if isPySpace c then
      if cur.isEmpty then wordsCore cs [] else cur.reverse :: wordsCore cs []
    else wordsCore cs (c :: cur)

/-- Python `str.split()` (split on whitespace runs, discarding empties). -/
def pyWords (s : String) : List String := (wordsCore s.data []).map (fun l => ⟨l⟩)

/-- Python `s.startswith(pre)`. -/
def pyStartsWith (s pre : String) : Bool := pre.data.isPrefixOf s.data

/-- Substring containment on character lists. -/
def containsList (l sub : List Char) : Bool := l.tails.any (fun t => sub.isPrefixOf t)

/-- Python `sub in s`. -/
def pyContains (s sub : String) : Bool := containsList s.data sub.data

/-- Python `str.upper()` (ASCII fragment). -/
def pyUpper (s : String) : String := ⟨s.data.map Char.toUpper⟩

/-- Python `s.lstrip(set)`: drop leading characters belonging to `set`. -/
def lstripSet (set : List Char) (s : String) : String :=
  ⟨s.data.dropWhile (fun c => set.contains c)⟩

/-- Python `'\n'.join(xs)`. -/
def joinNL : List String → String
  | [] => ""
  | [x] => x
  | x :: y :: xs => x ++ "\n" ++ joinNL (y :: xs)

/-- UTF-8 encoding of one code point, as a list of byte values. -/
def utf8Bytes (c : Char) : List Nat :=
  let n := c.toNat
  if n < 128 then [n]
  else if n < 2048 then [192 + n / 64, 128 + n % 64]
  else if n < 65536 then [224 + n / 4096, 128 + (n / 64) % 64, 128 + n % 64]
  else [240 + n / 262144, 128 + (n / 4096) % 64, 128 + (n / 64) % 64, 128 + n % 64]

/-- Uppercase hexadecimal digit. -/
def hexDigit (n : Nat) : Char := if n < 10 then Char.ofNat (48 + n) else Char.ofNat (55 + n)

/-- Percent-encoding of one byte, e.g. 32 becomes "%20". -/
def percentEncode (b : Nat) : List Char := ['%', hexDigit (b / 16), hexDigit (b % 16)]

/-- Characters `urllib.parse.quote` leaves unescaped with the default
`safe='/'`: ASCII alphanumerics, the always-safe marks and the slash. -/
def quoteSafe (c : Char) : Bool :=
  c.isAlphanum || c == '_' || c == '.' || c == '-' || c == '~' || c == '/'

/-- Python `urllib.parse.quote(s)` (default `safe='/'`, UTF-8). -/
def pyQuote (s : String) : String :=
  ⟨((s.data.map (fun c =>
      if quoteSafe c then [c] else ((utf8Bytes c).map percentEncode).flatten)).flatten)⟩

/-! ### image_generator.py -/

/-- The module-level constants imported from `config`: the three
provider API keys read from the environment. -/
structure ApiConfig where
  nano_banana_api_key : String
  segmind_api_key : String
  stability_api_key : String
deriving DecidableEq

/-- `ImageGenerator._get_api_key`: select the key matching the
configured service; the keyless provider gets the empty string;
an unsupported service name raises `ValueError` (modelled as
`Except.error`). -/
def get_api_key (cfg : ApiConfig) (api_type : String) : Except String String :=
  if api_type == "nano_banana" then .ok cfg.nano_banana_api_key
  else if api_type == "segmind" then .ok cfg.segmind_api_key
  else if api_type == "stability" then .ok cfg.stability_api_key
  else if api_type == "pollinations" then .ok ""
  else .error ("Unsupported API type: " ++ api_type)

/-- The constructed `ImageGenerator` object state. -/
structure ImageGenerator where
  api_type : String
  api_key : String
deriving DecidableEq

/-- `ImageGenerator.__init__`: store the api type and the result of
`_get_api_key` (construction fails exactly when `_get_api_key`
raises). -/
def mkImageGenerator (cfg : ApiConfig) (api_type : String) : Except String ImageGenerator :=
  (get_api_key cfg api_type).map (fun k => ⟨api_type, k⟩)

/-- One result dictionary appended by the generator methods.  Absent
dictionary keys are `none`. -/
structure GeneratedImage where
  prompt : String
  url : Option String := none
  base64 : Option String := none
  error : Option String := none
  api : String
deriving DecidableEq

/-- JSON payload of the Nano Banana request. -/
structure NanoBananaPayload where
  model : String
  prompt : String
  n : Int
  size : String
  quality : String
deriving DecidableEq

/-- JSON payload of the Segmind request. -/
structure SegmindPayload where
  prompt : String
  num_inference_steps : Int
  guidance_scale : ℚ
  width : Int
  height : Int
  num_images : Int
deriving DecidableEq

/-- One element of the Stability `text_prompts` array. -/
structure SDTextPrompt where
  text : String
deriving DecidableEq

/-- JSON payload of the Stability request. -/
structure StabilityPayload where
  text_prompts : List SDTextPrompt
  cfg_scale : Int
  height : Int
  width : Int
  samples : Int
  steps : Int
deriving DecidableEq

/-- A synchronous HTTP POST as issued by `requests.post`. -/
structure HttpPost (P : Type) where
  url : String
  headers : List (String × String)
  payload : P
deriving DecidableEq

/-- A request issued by one of the key-based provider methods. -/
inductive ApiRequest where
  | nano : HttpPost NanoBananaPayload → ApiRequest
  | segmind : HttpPost SegmindPayload → ApiRequest
  | stability : HttpPost StabilityPayload → ApiRequest
deriving DecidableEq

/-- The request `_generate_nano_banana` issues for one prompt. -/
def nanoRequest (key : String) (n : Int) (p : String) : ApiRequest :=
  .nano
    { url := "https://api.nanobanana.ai/v1/images/generations"
      headers := [("Authorization", "Bearer " ++ key), ("Content-Type", "application/json")]
      payload := { model := "nano-banana-v1", prompt := p, n := n, size := "1024x1024", quality := "hd" } }

/-- The request `_generate_segmind` issues for one prompt. -/
def segmindRequest (key : String) (n : Int) (p : String) : ApiRequest :=
  .segmind
    { url := "https://api.segmind.com/v1/sdxl1.0-txt2img"
      headers := [("x-api-key", key), ("Content-Type", "application/json")]
      payload :=
        { prompt := p, num_inference_steps := 20, guidance_scale := (15 : ℚ) / 2
          width := 1024, height := 1024, num_images := n } }

/-- The request `_generate_stability` issues for one prompt. -/
def stabilityRequest (key : String) (n : Int) (p : String) : ApiRequest :=
  .stability
    { url := "https://api.stability.ai/v1/generation/stable-diffusion-xl-1024-v1-0/text-to-image"
      headers := [("Authorization", "Bearer " ++ key), ("Content-Type", "application/json")]
      payload :=
        { text_prompts := [⟨p⟩], cfg_scale := 7, height := 1024, width := 1024
          samples := n, steps := 30 } }

/-- `ImageGenerator._generate_nano_banana`, with the HTTP layer as an
oracle indexed by the request position: `.ok urls` is the decoded
`data` array (each element the optional `url` field), `.error e` is
any exception raised by the request, status check or JSON decode.
Returns the appended result list and the list of issued requests. -/
def generate_nano_banana (key : String) (n : Int)
    (net : Nat → Except String (List (Option String))) :
    List String → Nat → List GeneratedImage × List ApiRequest
  | [], _ => ([], [])
  | p :: ps, i =>
    let entries : List GeneratedImage :=
      match net i with
      | .ok data => data.map (fun u => { prompt := p, url := u, api := "nano_banana" })
      | .error e => [{ prompt := p, url := none, error := some e, api := "nano_banana" }]
    let rest := generate_nano_banana key n net ps (i + 1)
    (entries ++ rest.1, nanoRequest key n p :: rest.2)

/-- `ImageGenerator._generate_segmind`, same conventions; the decoded
response is the `images` array of base64 strings. -/
def generate_segmind (key : String) (n : Int)
    (net : Nat → Except String (List String)) :
    List String → Nat → List GeneratedImage × List ApiRequest
  | [], _ => ([], [])
  | p :: ps, i =>
    let entries : List GeneratedImage :=
      match net i with
      | .ok data => data.map (fun b => { prompt := p, base64 := some b, api := "segmind" })
      | .error e => [{ prompt := p, url := none, error := some e, api := "segmind" }]
    let rest := generate_segmind key n net ps (i + 1)
    (entries ++ rest.1, segmindRequest key n p :: rest.2)

/-- `ImageGenerator._generate_stability`, same conventions; the decoded
response is the `artifacts` array (each element the optional `base64`
field). -/
def generate_stability (key : String) (n : Int)
    (net : Nat → Except String (List (Option String))) :
    List String → Nat → List GeneratedImage × List ApiRequest
  | [], _ => ([], [])
  | p :: ps, i =>
    let entries : List GeneratedImage :=
      match net i with
      | .ok data => data.map (fun b => { prompt := p, base64 := b, api := "stability" })
      | .error e => [{ prompt := p, url := none, error := some e, api := "stability" }]
    let rest := generate_stability key n net ps (i + 1)
    (entries ++ rest.1, stabilityRequest key n p :: rest.2)

/-- The URL `_generate_pollinations` builds for one prompt and seed. -/
def pollinationsUrl (p : String) (seed : Nat) : String :=
  "https://image.pollinations.ai/prompt/" ++ pyQuote p ++
    ("?width=1024&height=1024&enhance=true&seed=" ++ Nat.repr seed)

/-- `ImageGenerator._generate_pollinations`: no network call, one URL
per `(prompt, repetition)` with a fresh `random.randint(1, 10_000_000)`
draw; `seeds` is the stream of draws, indexed by overall position. -/
def generate_pollinations (seeds : Nat → Nat) (num_images : Int) :
    List String → Nat → List GeneratedImage
  | [], _ => []
  | p :: ps, i =>
    (List.range (max 1 num_images).toNat).map
        (fun j => { prompt := p, url := some (pollinationsUrl p (seeds (i + j))), api := "pollinations" })
      ++ generate_pollinations seeds num_images ps (i + (max 1 num_images).toNat)

/-- The HTTP oracles for the three key-based providers. -/
structure Network where
  nano : Nat → Except String (List (Option String))
  segmind : Nat → Except String (List String)
  stability : Nat → Except String (List (Option String))

/-- `ImageGenerator.generate_images`: dispatch on the configured api
type; an unsupported type raises `ValueError`.  Returns the result
list together with the list of HTTP requests issued. -/
def generate_images (g : ImageGenerator) (prompts : List String) (num_images : Int)
    (net : Network) (seeds : Nat → Nat) :
    Except String (List GeneratedImage × List ApiRequest) :=
  if g.api_type == "nano_banana" then
    .ok (generate_nano_banana g.api_key num_images net.nano prompts 0)
  else if g.api_type == "segmind" then
    .ok (generate_segmind g.api_key num_images net.segmind prompts 0)
  else if g.api_type == "stability" then
    .ok (generate_stability g.api_key num_images net.stability prompts 0)
  else if g.api_type == "pollinations" then
    .ok (generate_pollinations seeds num_images prompts 0, [])
  else .error ("Unsupported API type: " ++ g.api_type)

/-! ### instagram_crew.py -/

/-- The three fallback prompts templated from the topic
(`InstagramContentCrew._parse_image_prompts`). -/
def fallback_prompts (topic : String) : List String :=
  ["Professional Instagram post about " ++ topic ++ ", modern design, high quality",
   "Engaging social media visual for " ++ topic ++ ", vibrant colors, square format",
   "Creative illustration representing " ++ topic ++ ", clean background, Instagram ready"]

/-- The character set of `line.lstrip('0123456789.-• ')`. -/
def enumChars : List Char :=
  ['0', '1', '2', '3', '4', '5', '6', '7', '8', '9', '.', '-', '•', ' ']

/-- One iteration of the `_parse_image_prompts` filtering loop: strip
the line, keep it when non-blank, not a '#' line and longer than 20
characters, then strip enumeration characters; drop the cleaned line
when it is empty. -/
def cleanPromptLine (line : String) : Option String :=
  let l := pyStrip line
  if l ≠ "" ∧ pyStartsWith l "#" = false ∧ 20 < l.length then
    let clean := pyStrip (lstripSet enumChars l)
    if clean ≠ "" then some clean else none
  else none

/-- The prompt lines surviving the `_parse_image_prompts` filter. -/
def filtered_prompt_lines (text : String) : List String :=
  (pyLines text).filterMap cleanPromptLine

/-- `InstagramContentCrew._parse_image_prompts`. -/
def parse_image_prompts (text topic : String) : List String :=
  let prompts := filtered_prompt_lines text
  (if prompts.length < 3 then prompts ++ fallback_prompts topic else prompts).take 3

/-- The fixed placeholder `_extract_short_caption` returns when no
marker line is found. -/
def short_caption_placeholder : String := "Check the full content for short caption"

/-- The `_extract_short_caption` marker test:
`'SHORT CAPTION' in line.upper() or 'SHORT:' in line.upper()`. -/
def isShortMarker (line : String) : Bool :=
  pyContains (pyUpper line) "SHORT CAPTION" || pyContains (pyUpper line) "SHORT:"

/-- The `_extract_long_caption` marker test:
`'LONG CAPTION' in line.upper() or 'LONG:' in line.upper()`. -/
def isLongMarker (line : String) : Bool :=
  pyContains (pyUpper line) "LONG CAPTION" || pyContains (pyUpper line) "LONG:"

/-- The outer loop of `_extract_short_caption`: on a marker line,
compute `lines.index(line)` and scan the following lines for the first
non-blank one; if none is found the outer loop continues. -/
def shortCaptionLoop (allLines : List String) : List String → Option String
  | [] => none
  | l :: rest =>
    if isShortMarker l then
      match (allLines.drop (allLines.indexOf l + 1)).find? (fun s => pyStrip s != "") with
      | some s => some (pyStrip s)
      | none => shortCaptionLoop allLines rest
    else shortCaptionLoop allLines rest

/-- `InstagramContentCrew._extract_short_caption`. -/
def extract_short_caption (content : String) : String :=
  match shortCaptionLoop (pyLines content) (pyLines content) with
  | some s => s
  | none => short_caption_placeholder

/-- The inner loop of `_extract_long_caption`: collect stripped
non-blank lines not starting with '#', stopping at the first '#' line
once at least one caption line has been collected.  The accumulator
holds the collected lines reversed. -/
def collectCaption : List String → List String → List String
  | [], acc => acc.reverse
  | x :: xs, acc =>
    let s := pyStrip x
    if s != "" && !(pyStartsWith s "#") then collectCaption xs (s :: acc)
    else if pyStartsWith s "#" && !acc.isEmpty then acc.reverse
    else collectCaption xs acc

/-- `InstagramContentCrew._extract_long_caption`: on the first marker
line, compute `lines.index(line)` and run the collection loop on the
following lines; with no marker return the content unchanged. -/
def extract_long_caption (content : String) : String :=
  let ls := pyLines content
  match ls.find? isLongMarker with
  | some l => joinNL (collectCaption (ls.drop (ls.indexOf l + 1)) [])
  | none => content

/-- The `_extract_hashtags` token test: starts with '#' and is longer
than one character. -/
def hashTokenOk (w : String) : Bool := pyStartsWith w "#" && decide (1 < w.length)

/-- `InstagramContentCrew._extract_hashtags`: for each line containing
'#', collect its whitespace-split tokens that pass the token test;
return the first 30 collected tokens. -/
def extract_hashtags (content : String) : List String :=
  (((pyLines content).map (fun line =>
      if pyContains line "#" then (pyWords line).filter hashTokenOk else [])).flatten).take 30

/-- The sanitized filename component built by
`InstagramContentCrew._save_result`: keep alphanumerics, spaces,
hyphens and underscores, strip trailing whitespace, replace spaces
with underscores. -/
def safe_topic (topic : String) : String :=
  ⟨(stripTrail (topic.data.filter
      (fun c => c.isAlphanum || c == ' ' || c == '-' || c == '_'))).map
    (fun c => if c == ' ' then '_' else c)⟩

/-- Claim-side description of the hashtag extraction (C4): the
whitespace-split tokens of all lines that start with '#' and are
longer than one character, in order of occurrence, with no per-line
containment guard. -/
def all_hash_tokens (text : String) : List String :=
  ((pyLines text).map (fun line => (pyWords line).filter hashTokenOk)).flatten

/-- A network oracle whose every response is an empty result list. -/
def netOk : Network :=
  { nano := fun _ => .ok [], segmind := fun _ => .ok [], stability := fun _ => .ok [] }

/-! ### Helper lemmas -/

/-- Appending strings appends their character lists. -/
theorem sdata_append (a b : String) : (a ++ b).data = a.data ++ b.data := by
  cases a; cases b; rfl

/-- Characters survive `stripTrail`. -/
theorem mem_of_mem_stripTrail {c : Char} {l : List Char} (h : c ∈ stripTrail l) : c ∈ l := by
  unfold stripTrail at h
  have := (List.dropWhile_sublist isPySpace (l := l.reverse)).subset (List.mem_reverse.mp h)
  exact List.mem_reverse.mp this

/-- Every character of every word produced by `wordsCore` comes from
the input or from the accumulator. -/
theorem wordsCore_chars :
    ∀ (l cur : List Char) (w : List Char), w ∈ wordsCore l cur →
      ∀ c ∈ w, c ∈ l ∨ c ∈ cur := by
  intro l
  induction l with
  | nil =>
    intro cur w hw c hc
    unfold wordsCore at hw
    by_cases hcur : cur.isEmpty
    · simp [hcur] at hw
    · simp [hcur] at hw
      subst hw
      exact Or.inr (List.mem_reverse.mp hc)
  | cons x xs ih =>
    intro cur w hw c hc
    unfold wordsCore at hw
    by_cases hx : isPySpace x
    · simp only [hx, if_true] at hw
      by_cases hcur : cur.isEmpty
      · simp only [hcur, if_true] at hw
        rcases ih [] w hw c hc with h | h
        · exact Or.inl (List.mem_cons_of_mem _ h)
        · simp at h
      · simp only [hcur, if_false] at hw
        rcases List.mem_cons.mp hw with h | h
        · subst h
          exact Or.inr (List.mem_reverse.mp hc)
        · rcases ih [] w h c hc with h2 | h2
          · exact Or.inl (List.mem_cons_of_mem _ h2)
          · simp at h2
    · simp only [hx, if_false] at hw
      rcases ih (x :: cur) w hw c hc with h | h
      · exact Or.inl (List.mem_cons_of_mem _ h)
      · rcases List.mem_cons.mp h with h2 | h2
        · subst h2; exact Or.inl (List.mem_cons_self _ _)
        · exact Or.inr h2

/-- Single-character substring containment is character membership. -/
theorem containsList_singleton (l : List Char) (c : Char) :
    containsList l [c] = true ↔ c ∈ l := by
  induction l with
  | nil => simp [containsList, List.isPrefixOf]
  | cons x xs ih =>
    unfold containsList at ih ⊢
    rw [List.tails_cons]
    simp only [List.any_cons, Bool.or_eq_true, ih, List.mem_cons]
    constructor
    · rintro (h | h)
      · left
        cases hx : c == x with
        | true => exact (beq_iff_eq.mp hx)
        | false => simp [List.isPrefixOf, hx] at h
      · exact Or.inr h
    · rintro (h | h)
      · subst h; left; simp [List.isPrefixOf]
      · exact Or.inr h

/-- `find?` on a decomposed list whose prefix fails the predicate. -/
theorem find?_first {α : Type} (P : α → Bool) (pre : List α) (l : α) (rest : List α)
    (hpre : ∀ x ∈ pre, P x = false) (hl : P l = true) :
    (pre ++ l :: rest).find? P = some l := by
  induction pre with
  | nil => simp [List.find?_cons, hl]
  | cons x xs ih =>
    have hx := hpre x (List.mem_cons_self _ _)
    simp only [List.cons_append, List.find?_cons, hx]
    exact ih (fun y hy => hpre y (List.mem_cons_of_mem _ hy))

/-- On a decomposed list whose prefix fails the predicate that the
pivot satisfies, `indexOf` of the pivot is the prefix length. -/
theorem indexOf_first (P : String → Bool) (pre : List String) (l : String) (rest : List String)
    (hpre : ∀ x ∈ pre, P x = false) (hl : P l = true) :
    (pre ++ l :: rest).indexOf l = pre.length := by
  induction pre with
  | nil => simp [List.indexOf_cons_self]
  | cons x xs ih =>
    have hx := hpre x (List.mem_cons_self _ _)
    have hne : x ≠ l := fun h => by rw [h, hl] at hx; cases hx
    simp only [List.cons_append, List.length_cons]
    rw [List.indexOf_cons_ne _ hne, ih (fun y hy => hpre y (List.mem_cons_of_mem _ hy))]

/-- Dropping one past the prefix of a decomposed list. -/
theorem drop_len_succ_append {α : Type} (pre : List α) (l : α) (rest : List α) :
    (pre ++ l :: rest).drop (pre.length + 1) = rest := by
  induction pre with
  | nil => simp
  | cons x xs ih => simp only [List.cons_append, List.length_cons, List.drop_succ_cons]; exact ih

/-- `_generate_nano_banana` processes a concatenation independently,
advancing the request counter by the length of the first part. -/
theorem generate_nano_banana_append (key : String) (n : Int)
    (net : Nat → Except String (List (Option String))) (xs ys : List String) (i : Nat) :
    generate_nano_banana key n net (xs ++ ys) i =
      ((generate_nano_banana key n net xs i).1 ++ (generate_nano_banana key n net ys (i + xs.length)).1,
       (generate_nano_banana key n net xs i).2 ++ (generate_nano_banana key n net ys (i + xs.length)).2) := by
  induction xs generalizing i with
  | nil => simp [generate_nano_banana]
  | cons p ps ih =>
    simp only [List.cons_append, generate_nano_banana, List.append_eq, ih (i + 1), List.length_cons,
      List.append_assoc]
    rw [show i + 1 + ps.length = i + (ps.length + 1) from by omega]

/-- The requests issued by `_generate_nano_banana`: exactly one per
prompt, in order. -/
theorem generate_nano_banana_requests (key : String) (n : Int)
    (net : Nat → Except String (List (Option String))) (ps : List String) (i : Nat) :
    (generate_nano_banana key n net ps i).2 = ps.map (nanoRequest key n) := by
  induction ps generalizing i with
  | nil => rfl
  | cons p ps ih => simp only [generate_nano_banana, List.map_cons, ih (i + 1)]

/-- `_generate_segmind` processes a concatenation independently. -/
theorem generate_segmind_append (key : String) (n : Int)
    (net : Nat → Except String (List String)) (xs ys : List String) (i : Nat) :
    generate_segmind key n net (xs ++ ys) i =
      ((generate_segmind key n net xs i).1 ++ (generate_segmind key n net ys (i + xs.length)).1,
       (generate_segmind key n net xs i).2 ++ (generate_segmind key n net ys (i + xs.length)).2) := by
  induction xs generalizing i with
  | nil => simp [generate_segmind]
  | cons p ps ih =>
    simp only [List.cons_append, generate_segmind, List.append_eq, ih (i + 1), List.length_cons,
      List.append_assoc]
    rw [show i + 1 + ps.length = i + (ps.length + 1) from by omega]

/-- The requests issued by `_generate_segmind`. -/
theorem generate_segmind_requests (key : String) (n : Int)
    (net : Nat → Except String (List String)) (ps : List String) (i : Nat) :
    (generate_segmind key n net ps i).2 = ps.map (segmindRequest key n) := by
  induction ps generalizing i with
  | nil => rfl
  | cons p ps ih => simp only [generate_segmind, List.map_cons, ih (i + 1)]

/-- The requests issued by `_generate_stability`. -/
theorem generate_stability_requests (key : String) (n : Int)
    (net : Nat → Except String (List (Option String))) (ps : List String) (i : Nat) :
    (generate_stability key n net ps i).2 = ps.map (stabilityRequest key n) := by
  induction ps generalizing i with
  | nil => rfl
  | cons p ps ih => simp only [generate_stability, List.map_cons, ih (i + 1)]

/-- Length of the `_generate_pollinations` result. -/
theorem generate_pollinations_length (seeds : Nat → Nat) (n : Int) (ps : List String) (i : Nat) :
    (generate_pollinations seeds n ps i).length = ps.length * (max 1 n).toNat := by
  induction ps generalizing i with
  | nil => simp [generate_pollinations]
  | cons p ps ih =>
    simp only [generate_pollinations, List.length_append, List.length_map, List.length_range,
      ih, List.length_cons]
    ring

/-- The prompt fields of the `_generate_pollinations` result: each
source prompt repeated once per repetition, grouped in input order. -/
theorem generate_pollinations_prompts (seeds : Nat → Nat) (n : Int) (ps : List String) (i : Nat) :
    (generate_pollinations seeds n ps i).map (fun img => img.prompt)
      = (ps.map (fun p => List.replicate (max 1 n).toNat p)).flatten := by
  induction ps generalizing i with
  | nil => simp [generate_pollinations]
  | cons p ps ih =>
    simp only [generate_pollinations, List.map_append, List.map_map, ih, List.map_cons,
      List.flatten_cons]
    congr 1
    rw [show ((fun img => GeneratedImage.prompt img) ∘ fun j =>
        ({ prompt := p, url := some (pollinationsUrl p (seeds (i + j))), api := "pollinations" } : GeneratedImage))
      = fun _ => p from rfl]
    rw [List.map_const', List.length_range]

/-- The short-caption outer loop skips lines that are not marker lines. -/
theorem shortCaptionLoop_skip (allLines : List String) (pre rest : List String)
    (hpre : ∀ x ∈ pre, isShortMarker x = false) :
    shortCaptionLoop allLines (pre ++ rest) = shortCaptionLoop allLines rest := by
  induction pre with
  | nil => rfl
  | cons x xs ih =>
    have hx := hpre x (List.mem_cons_self _ _)
    simp only [List.cons_append, shortCaptionLoop, hx, Bool.false_eq_true, if_false]
    exact ih (fun y hy => hpre y (List.mem_cons_of_mem _ hy))

/-- With no marker line at all, the short-caption outer loop finds nothing. -/
theorem shortCaptionLoop_none (allLines : List String) (rest : List String)
    (h : ∀ x ∈ rest, isShortMarker x = false) :
    shortCaptionLoop allLines rest = none := by
  induction rest with
  | nil => rfl
  | cons x xs ih =>
    have hx := h x (List.mem_cons_self _ _)
    simp only [shortCaptionLoop, hx, Bool.false_eq_true, if_false]
    exact ih (fun y hy => h y (List.mem_cons_of_mem _ hy))

/-- Single-character containment as character membership, on strings. -/
theorem pyContains_hash (s : String) : pyContains s "#" = true ↔ '#' ∈ s.data := by
  have hd : ("#" : String).data = ['#'] := rfl
  unfold pyContains
  rw [hd]
  exact containsList_singleton s.data '#'

/-- A word of a line that does not contain '#' cannot pass the
hashtag token test. -/
theorem hash_filter_nil (line : String) (h : pyContains line "#" = false) :
    (pyWords line).filter hashTokenOk = [] := by
  rw [List.filter_eq_nil_iff]
  intro w hw
  intro hok
  have hstart : pyStartsWith w "#" = true := by
    unfold hashTokenOk at hok
    exact (Bool.and_eq_true _ _ |>.mp hok).1
  have hpre : ("#" : String).data.isPrefixOf w.data = true := hstart
  have hd : ("#" : String).data = ['#'] := rfl
  rw [hd] at hpre
  have hmem : '#' ∈ w.data := by
    rcases List.isPrefixOf_iff_prefix.mp hpre with ⟨t, ht⟩
    rw [← ht]
    exact List.mem_cons_self _ _
  obtain ⟨lw, hlw, rfl⟩ := List.mem_map.mp hw
  have : '#' ∈ line.data := by
    rcases wordsCore_chars line.data [] lw hlw '#' hmem with h2 | h2
    · exact h2
    · simp at h2
  rw [(pyContains_hash line).mpr this] at h
  cases h

/-! ### Claim C1 -/

/-- C1 counterexample: constructing the `ImageGenerator` with the
key-based provider `nano_banana` while its API key is empty does not
fail — it succeeds and stores the empty key (the claim asserts a
configuration error here).  Pollinations also succeeds, as claimed. -/
theorem claim1_counterexample :
    mkImageGenerator ⟨"", "", ""⟩ "nano_banana" = .ok ⟨"nano_banana", ""⟩
    ∧ mkImageGenerator ⟨"", "", ""⟩ "segmind" = .ok ⟨"segmind", ""⟩
    ∧ mkImageGenerator ⟨"", "", ""⟩ "stability" = .ok ⟨"stability", ""⟩
    ∧ mkImageGenerator ⟨"", "", ""⟩ "pollinations" = .ok ⟨"pollinations", ""⟩ :=
  ⟨rfl, rfl, rfl, rfl⟩

/-- C1 amended: construction succeeds for every supported provider
regardless of whether its key is configured — the key-based providers
store whatever key value the config holds (including the empty
string) and the keyless provider stores the empty string; construction
fails with `ValueError` exactly for an unsupported provider name. -/
theorem claim1_amended (cfg : ApiConfig) (t : String) :
    mkImageGenerator cfg "nano_banana" = .ok ⟨"nano_banana", cfg.nano_banana_api_key⟩
    ∧ mkImageGenerator cfg "segmind" = .ok ⟨"segmind", cfg.segmind_api_key⟩
    ∧ mkImageGenerator cfg "stability" = .ok ⟨"stability", cfg.stability_api_key⟩
    ∧ mkImageGenerator cfg "pollinations" = .ok ⟨"pollinations", ""⟩
    ∧ (t ≠ "nano_banana" → t ≠ "segmind" → t ≠ "stability" → t ≠ "pollinations" →
        mkImageGenerator cfg t = .error ("Unsupported API type: " ++ t)) := by
  refine ⟨rfl, rfl, rfl, rfl, fun h1 h2 h3 h4 => ?_⟩
  unfold mkImageGenerator get_api_key
  have g1 : (t == "nano_banana") = false := beq_eq_false_iff_ne.mpr h1
  have g2 : (t == "segmind") = false := beq_eq_false_iff_ne.mpr h2
  have g3 : (t == "stability") = false := beq_eq_false_iff_ne.mpr h3
  have g4 : (t == "pollinations") = false := beq_eq_false_iff_ne.mpr h4
  simp [g1, g2, g3, g4, Except.map]

/-- C1 witness: the amended theorem applied at a concrete unsupported
provider name. -/
theorem claim1_witness :
    mkImageGenerator ⟨"", "", ""⟩ "dall_e" = .error ("Unsupported API type: " ++ "dall_e") :=
  (claim1_amended ⟨"", "", ""⟩ "dall_e").2.2.2.2
    (by decide) (by decide) (by decide) (by decide)

/-! ### Claim C2 -/

/-- C2 counterexample: under the key-based provider `nano_banana`,
one prompt with `count_per_prompt = 2` issues one POST, not
`len(prompts) × 2 = 2` POSTs: the repetition count is passed inside
the single request payload. -/
theorem claim2_counterexample :
    (generate_images ⟨"nano_banana", "k"⟩ ["a"] 2 netOk (fun _ => 1)).map
        (fun r => r.2.length) = .ok 1
    ∧ (1 : Nat) ≠ ["a"].length * 2 :=
  ⟨rfl, by decide⟩

/-- C2 amended: for every prompt list and count, each key-based
provider issues exactly one synchronous HTTP POST per prompt —
`len(prompts)` POSTs in total — and each POST carries that prompt,
the requested per-prompt count, and the provider's fixed generation
parameters (1024×1024 resolution; the fixed step/guidance constants
of segmind and stability; the fixed model/quality of nano_banana),
as recorded in the request builders. -/
theorem claim2_amended (key : String) (n : Int) (net : Network) (seeds : Nat → Nat)
    (prompts : List String) :
    (∃ imgs reqs, generate_images ⟨"nano_banana", key⟩ prompts n net seeds = .ok (imgs, reqs)
      ∧ reqs = prompts.map (nanoRequest key n) ∧ reqs.length = prompts.length)
    ∧ (∃ imgs reqs, generate_images ⟨"segmind", key⟩ prompts n net seeds = .ok (imgs, reqs)
      ∧ reqs = prompts.map (segmindRequest key n) ∧ reqs.length = prompts.length)
    ∧ (∃ imgs reqs, generate_images ⟨"stability", key⟩ prompts n net seeds = .ok (imgs, reqs)
      ∧ reqs = prompts.map (stabilityRequest key n) ∧ reqs.length = prompts.length) := by
  refine ⟨⟨(generate_nano_banana key n net.nano prompts 0).1,
           (generate_nano_banana key n net.nano prompts 0).2, rfl,
           generate_nano_banana_requests key n net.nano prompts 0, ?_⟩,
          ⟨(generate_segmind key n net.segmind prompts 0).1,
           (generate_segmind key n net.segmind prompts 0).2, rfl,
           generate_segmind_requests key n net.segmind prompts 0, ?_⟩,
          ⟨(generate_stability key n net.stability prompts 0).1,
           (generate_stability key n net.stability prompts 0).2, rfl,
           generate_stability_requests key n net.stability prompts 0, ?_⟩⟩
  · rw [generate_nano_banana_requests, List.length_map]
  · rw [generate_segmind_requests, List.length_map]
  · rw [generate_stability_requests, List.length_map]

/-! ### Claim C3 -/

/-- C3: `_parse_image_prompts` always returns exactly 3 prompts; when
the filtered lines number at least 3 the result is their first 3, and
when they number fewer the result is all of them padded with the
topic-templated fallback prompts up to length 3. -/
theorem claim3 (text topic : String) :
    (parse_image_prompts text topic).length = 3
    ∧ (3 ≤ (filtered_prompt_lines text).length →
        parse_image_prompts text topic = (filtered_prompt_lines text).take 3)
    ∧ ((filtered_prompt_lines text).length < 3 →
        parse_image_prompts text topic =
          filtered_prompt_lines text
            ++ (fallback_prompts topic).take (3 - (filtered_prompt_lines text).length)) := by
  have hfb : (fallback_prompts topic).length = 3 := rfl
  have hdef : parse_image_prompts text topic =
      (if (filtered_prompt_lines text).length < 3
        then filtered_prompt_lines text ++ fallback_prompts topic
        else filtered_prompt_lines text).take 3 := rfl
  rw [hdef]
  by_cases h : (filtered_prompt_lines text).length < 3
  · rw [if_pos h]
    refine ⟨?_, fun h3 => absurd h (by omega), fun _ => ?_⟩
    · rw [List.length_take, List.length_append, hfb]
      omega
    · rw [List.take_append_eq_append_take,
        List.take_of_length_le (le_of_lt h)]
  · rw [if_neg h]
    exact ⟨by rw [List.length_take]; omega,
      fun _ => rfl, fun hlt => absurd hlt h⟩

/-- C3 witness: the theorem applied to an input whose filtering yields
no prompt lines, checking the padded branch concretely. -/
theorem claim3_witness :
    parse_image_prompts "" "cars" =
      filtered_prompt_lines ""
        ++ (fallback_prompts "cars").take (3 - (filtered_prompt_lines "").length) :=
  (claim3 "" "cars").2.2 (by decide)

/-! ### Claim C4 -/

/-- C4: `_extract_hashtags` returns at most 30 entries, every entry
starts with '#' and is longer than one character, and the result is
exactly the whitespace-split tokens of the text's lines that start
with '#' (length > 1), in order of occurrence, truncated to the
first 30. -/
theorem claim4 (text : String) :
    (extract_hashtags text).length ≤ 30
    ∧ (∀ h ∈ extract_hashtags text, pyStartsWith h "#" = true ∧ 1 < h.length)
    ∧ extract_hashtags text = (all_hash_tokens text).take 30 := by
  have hguard : extract_hashtags text = (all_hash_tokens text).take 30 := by
    unfold extract_hashtags all_hash_tokens
    congr 1
    congr 1
    apply List.map_congr_left
    intro line _
    by_cases hC : pyContains line "#" = true
    · simp [hC]
    · rw [Bool.not_eq_true] at hC
      simp only [hC, Bool.false_eq_true, if_false]
      exact (hash_filter_nil line hC).symm
  refine ⟨?_, ?_, hguard⟩
  · exact List.length_take_le 30 _
  · intro h hmem
    have hmem2 : h ∈ ((pyLines text).map (fun line =>
        if pyContains line "#" then (pyWords line).filter hashTokenOk else [])).flatten := by
      unfold extract_hashtags at hmem
      exact (List.take_sublist 30 _).subset hmem
    obtain ⟨l, hl, hhl⟩ := List.mem_flatten.mp hmem2
    obtain ⟨line, _, rfl⟩ := List.mem_map.mp hl
    have hok : hashTokenOk h = true := by
      by_cases hC : pyContains line "#" = true
      · rw [if_pos hC] at hhl
        exact (List.mem_filter.mp hhl).2
      · rw [Bool.not_eq_true] at hC
        simp only [hC, Bool.false_eq_true, if_false] at hhl
        cases hhl
    unfold hashTokenOk at hok
    have := Bool.and_eq_true _ _ |>.mp hok
    exact ⟨this.1, of_decide_eq_true this.2⟩

/-- C4 witness: the per-entry property at a concrete text and entry. -/
theorem claim4_witness :
    pyStartsWith "#ai" "#" = true ∧ 1 < ("#ai" : String).length :=
  (claim4 "hello #ai world").2.1 "#ai" (by decide)

/-! ### Claim C5 -/

/-- C5: under a key-based provider, when the HTTP request for one
prompt fails with any exception, the call does not raise: the failing
prompt contributes exactly one entry carrying the error message, all
subsequent prompts are still processed, and exactly one request per
prompt is issued — no retry.  Stated for `nano_banana` and `segmind`,
the two providers cited by the claim. -/
theorem claim5 (key : String) (n : Int)
    (netN : Nat → Except String (List (Option String)))
    (netS : Nat → Except String (List String))
    (ps1 : List String) (p : String) (ps2 : List String) (e : String)
    (hN : netN ps1.length = .error e) (hS : netS ps1.length = .error e) :
    (generate_nano_banana key n netN (ps1 ++ p :: ps2) 0).1
      = (generate_nano_banana key n netN ps1 0).1
        ++ { prompt := p, url := none, error := some e, api := "nano_banana" }
          :: (generate_nano_banana key n netN ps2 (ps1.length + 1)).1
    ∧ (generate_nano_banana key n netN (ps1 ++ p :: ps2) 0).2
      = (ps1 ++ p :: ps2).map (nanoRequest key n)
    ∧ (generate_segmind key n netS (ps1 ++ p :: ps2) 0).1
      = (generate_segmind key n netS ps1 0).1
        ++ { prompt := p, url := none, error := some e, api := "segmind" }
          :: (generate_segmind key n netS ps2 (ps1.length + 1)).1
    ∧ (generate_segmind key n netS (ps1 ++ p :: ps2) 0).2
      = (ps1 ++ p :: ps2).map (segmindRequest key n) := by
  refine ⟨?_, generate_nano_banana_requests key n netN _ 0, ?_,
    generate_segmind_requests key n netS _ 0⟩
  · rw [generate_nano_banana_append key n netN ps1 (p :: ps2) 0]
    simp only [Nat.zero_add, generate_nano_banana, hN, List.singleton_append]
  · rw [generate_segmind_append key n netS ps1 (p :: ps2) 0]
    simp only [Nat.zero_add, generate_segmind, hS, List.singleton_append]

/-- C5 witness: a failure on the middle prompt of three, checked on a
concrete oracle; the entries before and after the failure are intact. -/
theorem claim5_witness :
    (generate_nano_banana "k" 1
        (fun i => if i == 1 then .error "boom" else .ok [some "u"]) (["a"] ++ "b" :: ["c"]) 0).1
      = (generate_nano_banana "k" 1
          (fun i => if i == 1 then .error "boom" else .ok [some "u"]) ["a"] 0).1
        ++ { prompt := "b", url := none, error := some "boom", api := "nano_banana" }
          :: (generate_nano_banana "k" 1
              (fun i => if i == 1 then .error "boom" else .ok [some "u"]) ["c"] (["a"].length + 1)).1 :=
  (claim5 "k" 1 (fun i => if i == 1 then .error "boom" else .ok [some "u"])
    (fun i => if i == 1 then .error "boom" else .ok ["b64"])
    ["a"] "b" ["c"] "boom" rfl rfl).1

/-! ### Claim C6 -/

/-- C6: with no marker line, `_extract_long_caption` returns the input
unchanged; with a first marker line, it returns the lines collected
from the remainder by the caption loop — stripped non-blank lines not
starting with '#', stopping at the first '#' line reached after at
least one caption line has been collected — joined with newlines. -/
theorem claim6 (content : String) :
    ((∀ x ∈ pyLines content, isLongMarker x = false) → extract_long_caption content = content)
    ∧ (∀ pre l rest, pyLines content = pre ++ l :: rest →
        (∀ x ∈ pre, isLongMarker x = false) → isLongMarker l = true →
        extract_long_caption content = joinNL (collectCaption rest [])) := by
  have hdef : extract_long_caption content =
      match (pyLines content).find? isLongMarker with
      | some l => joinNL (collectCaption
          ((pyLines content).drop ((pyLines content).indexOf l + 1)) [])
      | none => content := rfl
  constructor
  · intro hno
    have hfind : (pyLines content).find? isLongMarker = none :=
      List.find?_eq_none.mpr (fun x hx => by simp [hno x hx])
    rw [hdef, hfind]
  · intro pre l rest hdec hpre hl
    rw [hdef, hdec, find?_first isLongMarker pre l rest hpre hl]
    show joinNL (collectCaption
        ((pre ++ l :: rest).drop ((pre ++ l :: rest).indexOf l + 1)) []) =
      joinNL (collectCaption rest [])
    rw [indexOf_first isLongMarker pre l rest hpre hl, drop_len_succ_append]

/-- C6 witness: both branches of the theorem at concrete inputs —
a text with no marker is returned unchanged, and a marker text
collects the caption lines, stopping at the '#' line. -/
theorem claim6_witness :
    extract_long_caption "just some text\nwith no marker" = "just some text\nwith no marker"
    ∧ extract_long_caption "LONG CAPTION\nfirst line\n\nsecond line\n#tag\nignored"
        = joinNL (collectCaption ["first line", "", "second line", "#tag", "ignored"] []) :=
  ⟨(claim6 "just some text\nwith no marker").1 (by decide),
   (claim6 "LONG CAPTION\nfirst line\n\nsecond line\n#tag\nignored").2
     [] "LONG CAPTION" ["first line", "", "second line", "#tag", "ignored"]
     (by decide) (by decide) (by decide)⟩

/-! ### Claim C7 -/

/-- C7: when some line contains a short-caption marker and a non-blank
line follows the first such marker line, `_extract_short_caption`
returns that first following non-blank line stripped; when no line
contains a marker, it returns the fixed placeholder. -/
theorem claim7 (content : String) :
    ((∀ x ∈ pyLines content, isShortMarker x = false) →
        extract_short_caption content = short_caption_placeholder)
    ∧ (∀ pre l mid s post, pyLines content = pre ++ l :: (mid ++ s :: post) →
        (∀ x ∈ pre, isShortMarker x = false) → isShortMarker l = true →
        (∀ x ∈ mid, pyStrip x = "") → pyStrip s ≠ "" →
        extract_short_caption content = pyStrip s) := by
  have hdef : extract_short_caption content =
      match shortCaptionLoop (pyLines content) (pyLines content) with
      | some s => s
      | none => short_caption_placeholder := rfl
  constructor
  · intro hno
    rw [hdef, shortCaptionLoop_none _ _ hno]
  · intro pre l mid s post hdec hpre hl hmid hs
    have hstep : shortCaptionLoop (pre ++ l :: (mid ++ s :: post)) (l :: (mid ++ s :: post))
        = match ((pre ++ l :: (mid ++ s :: post)).drop
              ((pre ++ l :: (mid ++ s :: post)).indexOf l + 1)).find? (fun t => pyStrip t != "") with
          | some t => some (pyStrip t)
          | none => shortCaptionLoop (pre ++ l :: (mid ++ s :: post)) (mid ++ s :: post) := by
      simp only [shortCaptionLoop, hl, if_true]
    have hmid2 : ∀ x ∈ mid, (pyStrip x != "") = false := by
      intro x hx
      rw [hmid x hx]
      rfl
    have hs2 : (pyStrip s != "") = true := bne_iff_ne.mpr hs
    rw [hdef, hdec, shortCaptionLoop_skip _ pre (l :: (mid ++ s :: post)) hpre, hstep,
      indexOf_first isShortMarker pre l (mid ++ s :: post) hpre hl, drop_len_succ_append,
      find?_first (fun t => pyStrip t != "") mid s post hmid2 hs2]

/-- C7 witness: the claim's concrete example — a marker line followed
by blank lines then a text line — and the no-marker placeholder case. -/
theorem claim7_witness :
    extract_short_caption "SHORT CAPTION\n\n\nHello world" = pyStrip "Hello world"
    ∧ extract_short_caption "no markers here" = short_caption_placeholder :=
  ⟨(claim7 "SHORT CAPTION\n\n\nHello world").2 [] "SHORT CAPTION" ["", ""] "Hello world" []
     (by decide) (by decide) (by decide) (by decide) (by decide),
   (claim7 "no markers here").1 (by decide)⟩

/-! ### Claim C8 -/

/-- C8: every character of the sanitized filename component is an
alphanumeric, a hyphen or an underscore, and the claim's concrete
example holds. -/
theorem claim8 (topic : String) :
    (∀ c ∈ (safe_topic topic).data, c.isAlphanum = true ∨ c = '-' ∨ c = '_')
    ∧ safe_topic "AI: The Future?!" = "AI_The_Future" := by
  constructor
  · intro c hc
    have hdata : (safe_topic topic).data =
        (stripTrail (topic.data.filter
          (fun c => c.isAlphanum || c == ' ' || c == '-' || c == '_'))).map
          (fun c => if c == ' ' then '_' else c) := rfl
    rw [hdata] at hc
    obtain ⟨c0, hc0, rfl⟩ := List.mem_map.mp hc
    have hmem := mem_of_mem_stripTrail hc0
    have hpred := (List.mem_filter.mp hmem).2
    by_cases hsp : (c0 == ' ') = true
    · right; right; simp [hsp]
    · rw [Bool.not_eq_true] at hsp
      simp only [hsp, Bool.false_eq_true, if_false]
      simp only [Bool.or_eq_true] at hpred
      rcases hpred with ((ha | hb) | hcm) | hu
      · exact Or.inl ha
      · rw [hsp] at hb; cases hb
      · exact Or.inr (Or.inl (beq_iff_eq.mp hcm))
      · exact Or.inr (Or.inr (beq_iff_eq.mp hu))
  · decide

/-- C8 witness: the character invariant applied at a concrete topic
and character. -/
theorem claim8_witness :
    ('a'.isAlphanum = true ∨ 'a' = '-' ∨ 'a' = '_')
    ∧ ('_'.isAlphanum = true ∨ '_' = '-' ∨ '_' = '_') :=
  ⟨(claim8 "a b").1 'a' (by decide), (claim8 "a b").1 '_' (by decide)⟩

/-! ### Claim C9 -/

/-- Structure of a pollinations URL: it is non-empty, contains the
URL-escaped prompt, and contains its seed query parameter. -/
theorem pollinationsUrl_spec (p : String) (sd : Nat) :
    pollinationsUrl p sd ≠ ""
    ∧ (∃ a b, (pollinationsUrl p sd).data = a ++ (pyQuote p).data ++ b)
    ∧ (∃ a b, (pollinationsUrl p sd).data = a ++ ("seed=" ++ Nat.repr sd).data ++ b) := by
  have hurl : (pollinationsUrl p sd).data
      = "https://image.pollinations.ai/prompt/".data ++ (pyQuote p).data
        ++ ("?width=1024&height=1024&enhance=true&seed=" ++ Nat.repr sd).data := by
    unfold pollinationsUrl
    rw [sdata_append, sdata_append]
  refine ⟨?_, ⟨"https://image.pollinations.ai/prompt/".data,
      ("?width=1024&height=1024&enhance=true&seed=" ++ Nat.repr sd).data, hurl⟩, ?_⟩
  · intro h
    have h2 := congrArg String.data h
    rw [hurl] at h2
    have hlen := congrArg List.length h2
    simp only [List.length_append] at hlen
    have hbase : ("https://image.pollinations.ai/prompt/" : String).data.length = 37 := by decide
    have hnil : ("" : String).data.length = 0 := rfl
    rw [hbase, hnil] at hlen
    omega
  · have hsfx : ("?width=1024&height=1024&enhance=true&seed=" ++ Nat.repr sd).data
        = "?width=1024&height=1024&enhance=true&".data ++ ("seed=" ++ Nat.repr sd).data := by
      rw [sdata_append, sdata_append, ← List.append_assoc]
      congr 1
    refine ⟨"https://image.pollinations.ai/prompt/".data ++ (pyQuote p).data
        ++ "?width=1024&height=1024&enhance=true&".data, [], ?_⟩
    rw [hurl, hsfx, List.append_nil]
    simp [List.append_assoc]

/-- C9: with the keyless provider, 2 prompts and count 1,
`generate_images` returns exactly 2 entries and issues no HTTP
request; each entry's URL is non-empty, contains the URL-escaped
prompt text and carries a seed parameter in the range 1..10,000,000
(the `random.randint` contract). -/
theorem claim9 (p1 p2 : String) (net : Network) (seeds : Nat → Nat)
    (hseeds : ∀ i, 1 ≤ seeds i ∧ seeds i ≤ 10000000) :
    ∃ imgs, generate_images ⟨"pollinations", ""⟩ [p1, p2] 1 net seeds = .ok (imgs, [])
      ∧ imgs.length = 2
      ∧ ∀ img ∈ imgs, ∃ u, img.url = some u ∧ u ≠ ""
          ∧ (∃ a b, u.data = a ++ (pyQuote img.prompt).data ++ b)
          ∧ (∃ sd a b, 1 ≤ sd ∧ sd ≤ 10000000
              ∧ u.data = a ++ ("seed=" ++ Nat.repr sd).data ++ b) := by
  refine ⟨[{ prompt := p1, url := some (pollinationsUrl p1 (seeds 0)), api := "pollinations" },
           { prompt := p2, url := some (pollinationsUrl p2 (seeds 1)), api := "pollinations" }],
    rfl, rfl, ?_⟩
  intro img hmem
  rcases List.mem_cons.mp hmem with h | h
  · subst h
    obtain ⟨hne, ⟨a1, b1, hq⟩, ⟨a2, b2, hsd⟩⟩ := pollinationsUrl_spec p1 (seeds 0)
    exact ⟨pollinationsUrl p1 (seeds 0), rfl, hne, ⟨a1, b1, hq⟩,
      ⟨seeds 0, a2, b2, (hseeds 0).1, (hseeds 0).2, hsd⟩⟩
  · rcases List.mem_cons.mp h with h2 | h2
    · subst h2
      obtain ⟨hne, ⟨a1, b1, hq⟩, ⟨a2, b2, hsd⟩⟩ := pollinationsUrl_spec p2 (seeds 1)
      exact ⟨pollinationsUrl p2 (seeds 1), rfl, hne, ⟨a1, b1, hq⟩,
        ⟨seeds 1, a2, b2, (hseeds 1).1, (hseeds 1).2, hsd⟩⟩
    · cases h2

/-- C9 witness: the theorem at two concrete prompts and a constant
in-range seed stream. -/
theorem claim9_witness :
    ∃ imgs, generate_images ⟨"pollinations", ""⟩ ["cat", "dog"] 1 netOk (fun _ => 7) = .ok (imgs, [])
      ∧ imgs.length = 2
      ∧ ∀ img ∈ imgs, ∃ u, img.url = some u ∧ u ≠ ""
          ∧ (∃ a b, u.data = a ++ (pyQuote img.prompt).data ++ b)
          ∧ (∃ sd a b, 1 ≤ sd ∧ sd ≤ 10000000
              ∧ u.data = a ++ ("seed=" ++ Nat.repr sd).data ++ b) :=
  claim9 "cat" "dog" netOk (fun _ => 7) (fun _ => ⟨by norm_num, by norm_num⟩)

/-! ### Claim C10 -/

/-- C10: `_generate_pollinations` returns exactly
`len(prompts) × max(1, num_images)` entries — a non-positive count
still yields one entry per prompt — each entry's prompt field equals
its source prompt, and entries are grouped in the input prompts'
order. -/
theorem claim10 (seeds : Nat → Nat) (n : Int) (prompts : List String) (i : Nat) :
    (generate_pollinations seeds n prompts i).length = prompts.length * (max 1 n).toNat
    ∧ (generate_pollinations seeds n prompts i).map (fun img => img.prompt)
        = (prompts.map (fun p => List.replicate (max 1 n).toNat p)).flatten
    ∧ (n ≤ 0 → (generate_pollinations seeds n prompts i).length = prompts.length) := by
  refine ⟨generate_pollinations_length seeds n prompts i,
    generate_pollinations_prompts seeds n prompts i, fun hn => ?_⟩
  have h1 : max 1 n = 1 := max_eq_left (by omega)
  rw [generate_pollinations_length, h1]
  simp

/-- C10 witness: a negative count still yields one entry per prompt. -/
theorem claim10_witness :
    (generate_pollinations (fun _ => 1) (-2) ["a", "b"] 0).length = (["a", "b"] : List String).length :=
  (claim10 (fun _ => 1) (-2) ["a", "b"] 0).2.2 (by norm_num)
